import Mathlib

/-
Verification development for the Sweet Shop Management frontend.

Shallow embedding of:
  - the HTTP client service (api.js): header construction, uniform
    response handling, token presence check, stored-user access;
  - the auth context (AuthContext.js, active variant): rehydration on
    startup, login, logout;
  - the sweet card purchase flow (SweetCard.js): quantity guard,
    success and failure postconditions;
  - the toast notification system (Toast.js): publish, auto-dismiss
    timer scheduling, dismissal by identifier.

Modelling conventions:
  - browser localStorage is a record of the three keys this app uses
    (access_token, user, token), each an optional string;
  - JavaScript string truthiness is jsTruthy (present and non-empty);
  - JSON values are modelled as flat objects with string keys and
    string values without escape sequences, which covers every shape
    this app stores or reads; JSON.parse is parseObj, JSON.stringify is
    stringifyObj; a parse failure models the thrown SyntaxError;
  - numbers crossing the network (total cost) are exact rationals; the
    Number.prototype.toFixed rendering with two digits is toFixed2
    (round to nearest hundredth, ties toward the larger candidate, as
    the ECMAScript specification prescribes); IEEE-754 representation
    artifacts are outside the model;
  - fallible operations return Except, with the modelled message of
    the thrown exception.
-/

namespace SweetShop

/-- A JavaScript object with string-valued fields, as stored by this app. -/
abbrev Obj := List (String × String)

/-- Property read on a JavaScript object; later keys shadow earlier ones. -/
def objGet (o : Obj) (k : String) : Option String :=
  (o.reverse.find? (fun p => p.1 = k)).map (fun p => p.2)

/-- JavaScript truthiness of a nullable string: present and non-empty. -/
def jsTruthy : Option String → Bool
  | none => false
  | some s => s != ""

/- Characters needed by the JSON model. -/

def quoteChar : Char := Char.ofNat 34

def lbraceChar : Char := Char.ofNat 123

def rbraceChar : Char := Char.ofNat 125

def backslashChar : Char := Char.ofNat 92

/-- JSON string literal body: characters up to the closing quote.
Escape sequences are outside the model and rejected. -/
def parseStrAux : List Char → Option (List Char × List Char)
  | [] => none
  | c :: rest =>
    if c = quoteChar then some ([], rest)
    else if c = backslashChar then none
    else
      match parseStrAux rest with
      | some (cs, rem) => some (c :: cs, rem)
      | none => none

/-- One quoted-key colon quoted-value pair. -/
def parseKV (cs : List Char) : Option ((String × String) × List Char) :=
  match cs with
  | [] => none
  | c :: rest =>
    if c = quoteChar then
      match parseStrAux rest with
      | some (k, rem) =>
        match rem with
        | [] => none
        | c2 :: rem2 =>
          if c2 = ':' then
            match rem2 with
            | [] => none
            | c3 :: rem3 =>
              if c3 = quoteChar then
                match parseStrAux rem3 with
                | some (v, rem4) => some ((String.mk k, String.mk v), rem4)
                | none => none
              else none
          else none
      | none => none
    else none

/-- Comma-separated pairs up to the closing brace, consuming all input. -/
def parsePairs (fuel : Nat) (cs : List Char) : Option Obj :=
  match fuel with
  | 0 => none
  | fuel + 1 =>
    match parseKV cs with
    | some (kv, rem) =>
      match rem with
      | [c] => if c = rbraceChar then some [kv] else none
      | c :: rest => if c = ',' then (parsePairs fuel rest).map (kv :: ·) else none
      | [] => none
    | none => none

/-- JSON.parse restricted to the flat string objects this app persists;
any other input models a thrown SyntaxError via none. -/
def parseObj (s : String) : Option Obj :=
  match s.toList with
  | [] => none
  | c :: rest =>
    if c = lbraceChar then
      if rest = [rbraceChar] then some []
      else parsePairs (rest.length + 1) rest
    else none

def quoteStr (s : String) : String :=
  String.mk [quoteChar] ++ s ++ String.mk [quoteChar]

/-- JSON.stringify of a flat string object (no escaping needed for the
identifier and token strings this app stores). -/
def stringifyObj (o : Obj) : String :=
  String.mk [lbraceChar]
    ++ String.intercalate "," (o.map (fun p => quoteStr p.1 ++ ":" ++ quoteStr p.2))
    ++ String.mk [rbraceChar]

/-- The browser localStorage restricted to the keys this app touches.
api.js reads and clears access_token and user; AuthContext.js writes
and clears user and token. -/
structure Storage where
  access_token : Option String
  user : Option String
  token : Option String
deriving DecidableEq

/-- Modelled message of the SyntaxError thrown by JSON.parse. -/
def jsonErrorMsg : String := "SyntaxError: Unexpected token in JSON"

/- ===================== HTTP client (api.js) ===================== -/

/-- getAuthHeaders: content type plus a bearer header when the
access_token entry is truthy. -/
def getAuthHeaders (s : Storage) : List (String × String) :=
  ("Content-Type", "application/json") ::
    (match s.access_token with
      | some t => if t = "" then [] else [("Authorization", "Bearer " ++ t)]
      | none => [])

/-- isAuthenticated: double-negation of the access_token entry. -/
def isAuthenticated (s : Storage) : Bool :=
  jsTruthy s.access_token

/-- A fetch response as handleResponse consumes it: its status and the
outcome of parsing its body as JSON (none when absent or unparseable). -/
structure Response where
  status : Nat
  body : Option Obj
deriving DecidableEq

/-- response.ok per fetch: status in the 200 to 299 range. -/
def responseOk (status : Nat) : Bool :=
  200 ≤ status && status ≤ 299

/-- Generic message thrown for a non-success status with no usable
detail field. -/
def httpErrorFallback (status : Nat) : String :=
  "HTTP error! status: " ++ toString status

instance {ε α : Type} [DecidableEq ε] [DecidableEq α] : DecidableEq (Except ε α) :=
  fun a b =>
    match a, b with
    | .ok x, .ok y =>
      if h : x = y then isTrue (by rw [h]) else isFalse (by intro hc; cases hc; exact h rfl)
    | .error x, .error y =>
      if h : x = y then isTrue (by rw [h]) else isFalse (by intro hc; cases hc; exact h rfl)
    | .ok _, .error _ => isFalse (by intro hc; cases hc)
    | .error _, .ok _ => isFalse (by intro hc; cases hc)

/-- Result of handleResponse: the storage afterwards, the forced
navigation target if any, and the resolved or thrown outcome. -/
structure HandleStep where
  storage : Storage
  navigation : Option String
  result : Except String (Option Obj)
deriving DecidableEq

/-- handleResponse from api.js: 401 clears access_token and user,
redirects to /login and throws; other non-ok statuses throw the detail
field of the parsed error body or the generic fallback; 204 resolves
to null; otherwise the parsed body is returned. -/
def handleResponse (s : Storage) (r : Response) : HandleStep :=
  if r.status = 401 then
    ⟨{ s with access_token := none, user := none }, some "/login",
      .error "Session expired. Please login again."⟩
  else if responseOk r.status = false then
    ⟨s, none,
      .error
        (match objGet (r.body.getD []) "detail" with
          | some d => if d = "" then httpErrorFallback r.status else d
          | none => httpErrorFallback r.status)⟩
  else if r.status = 204 then
    ⟨s, none, .ok none⟩
  else
    match r.body with
    | some o => ⟨s, none, .ok (some o)⟩
    | none => ⟨s, none, .error jsonErrorMsg⟩

/-- getStoredUser from api.js: null when the user entry is falsy,
otherwise the unguarded JSON.parse of it, which throws on bad input. -/
def getStoredUser (s : Storage) : Except String (Option Obj) :=
  if jsTruthy s.user then
    match parseObj (s.user.getD "") with
    | some o => .ok (some o)
    | none => .error jsonErrorMsg
  else .ok none

/-- getErrorMessage from api.js: the message when truthy, otherwise a
generic fallback. -/
def genericErrorMessage : String :=
  "An unexpected error occurred. Please try again."

def getErrorMessage : Option String → String
  | some m => if m = "" then genericErrorMessage else m
  | none => genericErrorMessage

/- ================ Session store (AuthContext.js) ================ -/

/-- In-memory state of the auth context: the user value is null while
anonymous and the stored object while authenticated. -/
structure AuthState where
  user : Option Obj
deriving DecidableEq

/-- The startup effect of AuthProvider: read the user and token
entries; when both are truthy, parse the stored user (an unguarded
JSON.parse) and adopt it; otherwise stay anonymous. -/
def rehydrate (s : Storage) : Except String AuthState :=
  if jsTruthy s.user && jsTruthy s.token then
    match parseObj (s.user.getD "") with
    | some o => .ok ⟨some o⟩
    | none => .error jsonErrorMsg
  else .ok ⟨none⟩

/-- Result of the login method: the state and storage afterwards and
the reported outcome. -/
structure LoginStep where
  state : AuthState
  storage : Storage
  success : Bool
  message : String
deriving DecidableEq

/-- Modelled message of the TypeError thrown by reading access_token
off a null response body. -/
def nullBodyMsg : String := "TypeError: cannot read access_token of null"

/-- The login method of AuthContext.js. The network interaction via
apiService.login is abstracted as its outcome: a thrown error message
or the resolved body. On a truthy access_token the user object is
built from the given username and the token, stored in memory and
under the user and token storage keys; otherwise nothing changes and a
failure is reported. -/
def authLogin (st : AuthState) (s : Storage) (username _password : String)
    (api : Except (Option String) (Option Obj)) : LoginStep :=
  match api with
  | .error e => ⟨st, s, false, getErrorMessage e⟩
  | .ok none => ⟨st, s, false, getErrorMessage (some nullBodyMsg)⟩
  | .ok (some resp) =>
    match objGet resp "access_token" with
    | some t =>
      if t = "" then ⟨st, s, false, "Invalid credentials"⟩
      else
        ⟨⟨some [("username", username), ("token", t)]⟩,
          { s with
              user := some (stringifyObj [("username", username), ("token", t)]),
              token := some t },
          true, "Login successful"⟩
    | none => ⟨st, s, false, "Invalid credentials"⟩

/-- Severity of a toast notification. -/
inductive Severity where
  | success
  | error
  | info
deriving DecidableEq

structure Notification where
  severity : Severity
  message : String
deriving DecidableEq

/-- Result of the logout method. -/
structure LogoutStep where
  state : AuthState
  storage : Storage
  notifications : List Notification
deriving DecidableEq

/-- The logout method of AuthContext.js: null the in-memory user,
remove the user and token entries, publish one success toast. -/
def authLogout (_st : AuthState) (s : Storage) : LogoutStep :=
  ⟨⟨none⟩, { s with user := none, token := none },
    [⟨Severity.success, "Logged out successfully"⟩]⟩

/- ================= Purchase flow (SweetCard.js) ================= -/

/-- A product as the card receives it. -/
structure Sweet where
  id : Nat
  name : String
  category : String
  price : ℚ
  quantity : Int
deriving DecidableEq

/-- The card state hooks involved in handlePurchase. -/
structure CardState where
  isLoading : Bool
  purchaseQuantity : Int
  showQuantitySelector : Bool
deriving DecidableEq

/-- Outcome of the awaited apiService.purchaseSweet call: the resolved
body with its total_cost field, or the thrown error message. -/
inductive PurchaseOutcome where
  | success (totalCost : ℚ)
  | failure (errMessage : Option String)
deriving DecidableEq

/-- ECMAScript toFixed rounding to hundredths: the integer n with
n / 100 closest to x, ties resolved to the larger n; computed on the
numerator and denominator so that it evaluates inside the kernel.
jsRound2_floor below proves it equal to the floor characterization. -/
def jsRound2 (x : ℚ) : Int := Int.fdiv (200 * x.num + x.den) (2 * x.den)

/-- The two digits after the decimal point of the hundredths count. -/
def twoDigits (na : Nat) : String :=
  String.mk [Char.ofNat (48 + na / 10 % 10), Char.ofNat (48 + na % 10)]

/-- Number.prototype.toFixed with two digits on an exact rational. -/
def toFixed2 (x : ℚ) : String :=
  (if jsRound2 x < 0 then "-" else "")
    ++ toString ((jsRound2 x).natAbs / 100) ++ "." ++ twoDigits (jsRound2 x).natAbs

/-- Result of one handlePurchase run: the card state afterwards, the
purchase requests sent over the network (product id and quantity), the
toasts published, and whether onUpdate was signalled. -/
structure PurchaseStep where
  state : CardState
  requests : List (Nat × Int)
  notifications : List Notification
  refreshed : Bool
deriving DecidableEq

/-- handlePurchase from SweetCard.js. The guard refuses a non-positive
or excessive quantity before any network activity; on a resolved
purchase the selector closes, the quantity resets to 1, a success
toast renders the total cost via toFixed(2) and onUpdate fires; on a
thrown error an error toast shows the extracted message and the
selector state survives. -/
def handlePurchase (sweet : Sweet) (st : CardState) (net : PurchaseOutcome) :
    PurchaseStep :=
  if st.purchaseQuantity ≤ 0 ∨ st.purchaseQuantity > sweet.quantity then
    ⟨st, [], [⟨Severity.error, "Invalid quantity selected"⟩], false⟩
  else
    match net with
    | .success totalCost =>
      ⟨⟨false, 1, false⟩, [(sweet.id, st.purchaseQuantity)],
        [⟨Severity.success,
          "Purchased " ++ toString st.purchaseQuantity ++ " " ++ sweet.name
            ++ "(s) for " ++ toFixed2 totalCost⟩],
        true⟩
    | .failure em =>
      ⟨{ st with isLoading := false }, [(sweet.id, st.purchaseQuantity)],
        [⟨Severity.error, getErrorMessage em⟩], false⟩

/- ================ Notification system (Toast.js) ================ -/

/-- A toast value as showToast constructs it. -/
structure ToastItem where
  id : Nat
  message : String
  ttype : String
  timestamp : Nat
deriving DecidableEq

/-- showToast: increment the process-wide counter and use it as the
fresh identifier. -/
def showToast (message ttype : String) (now counter : Nat) : ToastItem × Nat :=
  (⟨counter + 1, message, ttype, now⟩, counter + 1)

/-- The instant at which the auto-dismiss timer registered on delivery
of a toast fires: 4000 milliseconds after its creation. -/
def fireAt (t : ToastItem) : Nat := t.timestamp + 4000

/-- Events acting on the visible toast list: delivery of a new toast,
the auto-dismiss timer of an identifier firing, and a manual dismissal
by click. -/
inductive TEvent where
  | deliver (t : ToastItem)
  | fire (id : Nat)
  | dismiss (id : Nat)
deriving DecidableEq

/-- One event on the visible list: delivery appends; both dismissal
paths filter exactly the given identifier out. -/
def tstep (v : List ToastItem) : TEvent → List ToastItem
  | .deliver t => v ++ [t]
  | .fire i => v.filter (fun t => t.id ≠ i)
  | .dismiss i => v.filter (fun t => t.id ≠ i)

/-- The visible list after a sequence of events. -/
def trunFrom (v : List ToastItem) (evs : List TEvent) : List ToastItem :=
  evs.foldl tstep v

end SweetShop

namespace SweetShop

example : parseObj (stringifyObj [("username", "testuser"), ("token", "abc")])
    = some [("username", "testuser"), ("token", "abc")] := by decide

example : parseObj ":" = none := by decide

example : parseObj "" = none := by decide

example : stringifyObj [("username", "testuser"), ("token", "abc")]
    = "\x7b\"username\":\"testuser\",\"token\":\"abc\"\x7d" := by decide

example : objGet [("a", "1"), ("a", "2")] "a" = some "2" := by decide

example : toFixed2 (Rat.divInt 15 2) = "7.50" := by decide

example : toFixed2 (0 : ℚ) = "0.00" := by decide

example : toFixed2 (Rat.divInt 1234 1000) = "1.23" := by decide

example : toFixed2 (Rat.divInt 1235 1000) = "1.24" := by decide

example : toFixed2 (Rat.divInt (-15) 2) = "-7.50" := by decide

example : rehydrate ⟨none, some ":", some "t"⟩ = .error jsonErrorMsg := by decide

example : rehydrate ⟨none, some ":", none⟩ = .ok ⟨none⟩ := by decide

example :
    rehydrate ⟨none, some (stringifyObj [("username", "u"), ("token", "t")]), some "t"⟩
      = .ok ⟨some [("username", "u"), ("token", "t")]⟩ := by decide

example :
    handleResponse ⟨none, none, none⟩ ⟨500, none⟩
      = ⟨⟨none, none, none⟩, none, .error "HTTP error! status: 500"⟩ := by decide

example :
    handleResponse ⟨some "a", some "u", some "k"⟩ ⟨401, none⟩
      = ⟨⟨none, none, some "k"⟩, some "/login",
          .error "Session expired. Please login again."⟩ := by decide

/-- The rounding step of toFixed2 is the floor form of the ECMAScript
toFixed rule: the integer closest to 100 x, ties toward the larger
value. -/
theorem jsRound2_floor (x : ℚ) : jsRound2 x = ⌊(x * 100 + 1 / 2 : ℚ)⌋ := by
  have hb : (0 : ℤ) ≤ 2 * (x.den : ℤ) := by positivity
  have h2 : x * (x.den : ℚ) = (x.num : ℚ) := by
    exact_mod_cast Rat.mul_den_eq_num x
  have hx : (x * 100 + 1 / 2 : ℚ)
      = ((200 * x.num + (x.den : ℤ) : ℤ) : ℚ) / (((2 * x.den : ℕ) : ℕ) : ℚ) := by
    rw [eq_div_iff (by positivity)]
    push_cast
    linear_combination (200 : ℚ) * h2
  rw [jsRound2, Int.fdiv_eq_ediv _ hb, hx, Rat.floor_intCast_div_natCast]
  push_cast
  rfl

/-- Shared shape lemma: handleResponse on a 401 status, from api.js
lines 36 to 41. -/
theorem handleResponse_401_eq (s : Storage) (r : Response) (h : r.status = 401) :
    handleResponse s r
      = ⟨{ s with access_token := none, user := none }, some "/login",
          .error "Session expired. Please login again."⟩ := by
  rw [handleResponse, if_pos h]

/-- Shared shape lemma: the successful branch of the login method of
AuthContext.js, for a resolved body whose access_token field is
truthy. -/
theorem authLogin_success_eq (st : AuthState) (s : Storage) (u p t : String)
    (o : Obj) (ht : objGet o "access_token" = some t) (hne : t ≠ "") :
    authLogin st s u p (.ok (some o))
      = ⟨⟨some [("username", u), ("token", t)]⟩,
          { s with
              user := some (stringifyObj [("username", u), ("token", t)]),
              token := some t },
          true, "Login successful"⟩ := by
  simp only [authLogin, ht]
  rw [if_neg hne]

/-- Claim C1: a purchase attempt with a pending quantity that is
non-positive or larger than the available stock issues no network
request, publishes exactly one error toast reading Invalid quantity
selected, and leaves the card state, hence the open quantity selector
and the pending quantity, unchanged. -/
theorem purchase_invalid_quantity_guard :
    ∀ (sweet : Sweet) (st : CardState) (net : PurchaseOutcome),
      st.showQuantitySelector = true →
      st.purchaseQuantity ≤ 0 ∨ st.purchaseQuantity > sweet.quantity →
      handlePurchase sweet st net
          = ⟨st, [], [⟨Severity.error, "Invalid quantity selected"⟩], false⟩
        ∧ (handlePurchase sweet st net).state.showQuantitySelector = true
        ∧ (handlePurchase sweet st net).state.purchaseQuantity
            = st.purchaseQuantity := by
  intro sweet st net hsel hguard
  have h : handlePurchase sweet st net
      = ⟨st, [], [⟨Severity.error, "Invalid quantity selected"⟩], false⟩ := by
    rw [handlePurchase.eq_def, if_pos hguard]
  exact ⟨h, by rw [h]; exact hsel, by rw [h]⟩

/-- Witness for C1, the scenario of the spec: requesting 3 of a
product with 2 in stock is rejected locally. -/
theorem purchase_invalid_quantity_guard_w :
    handlePurchase ⟨5, "Ladoo", "candy", 10, 2⟩ ⟨false, 3, true⟩
        (PurchaseOutcome.failure none)
      = ⟨⟨false, 3, true⟩, [], [⟨Severity.error, "Invalid quantity selected"⟩],
          false⟩ :=
  (purchase_invalid_quantity_guard ⟨5, "Ladoo", "candy", 10, 2⟩ ⟨false, 3, true⟩
    (PurchaseOutcome.failure none) rfl (by decide)).1

/-- Claim C5: a purchase whose network call resolves leaves the card
idle with the selector hidden, resets the pending quantity to 1, sends
exactly one request, publishes exactly one success toast whose message
renders the total cost through toFixed with exactly two digits after
the decimal point, and signals the owner to refresh. -/
theorem purchase_success_postconditions :
    ∀ (sweet : Sweet) (st : CardState) (total : ℚ),
      0 < st.purchaseQuantity → st.purchaseQuantity ≤ sweet.quantity →
      handlePurchase sweet st (PurchaseOutcome.success total)
          = ⟨⟨false, 1, false⟩, [(sweet.id, st.purchaseQuantity)],
              [⟨Severity.success,
                "Purchased " ++ toString st.purchaseQuantity ++ " " ++ sweet.name
                  ++ "(s) for " ++ toFixed2 total⟩], true⟩
        ∧ ∃ ip d1 d2, toFixed2 total = ip ++ "." ++ String.mk [d1, d2] := by
  intro sweet st total h1 h2
  constructor
  · rw [handlePurchase.eq_def, if_neg (by omega)]
  · exact ⟨_, _, _, rfl⟩

/-- Witness for C5, the scenario of the spec: a resolved total cost of
7.5 is shown as 7.50. -/
theorem purchase_success_postconditions_w :
    handlePurchase ⟨5, "Ladoo", "candy", 10, 10⟩ ⟨false, 3, true⟩
        (PurchaseOutcome.success (Rat.divInt 15 2))
      = ⟨⟨false, 1, false⟩, [(5, 3)],
          [⟨Severity.success, "Purchased 3 Ladoo(s) for 7.50"⟩], true⟩ :=
  ((purchase_success_postconditions ⟨5, "Ladoo", "candy", 10, 10⟩ ⟨false, 3, true⟩
    (Rat.divInt 15 2) (by decide) (by decide)).1).trans (by decide)

/-- Claim C2 counterexample: the claim says a 401 clears all persisted
session data. Reachable state: the Session Store login persisted the
credential under the token key; the 401 handler removes only the
access_token and user keys, so the token entry survives. -/
theorem http401_leaves_store_token_cex :
    (handleResponse
        (authLogin ⟨none⟩ ⟨none, none, none⟩ "testuser" "test123"
          (.ok (some [("access_token", "abc")]))).storage
        ⟨401, none⟩).storage.token
      = some "abc" := by decide

/-- Claim C2 as amended: a 401 on any client operation clears the
access_token and user entries, forces navigation to /login, and throws
the session-expired message; the access_token entry being gone,
isAuthenticated is false afterwards. The separately persisted token
entry of the Session Store is not touched. -/
theorem http401_clears_client_session :
    ∀ (s : Storage) (r : Response), r.status = 401 →
      handleResponse s r
          = ⟨{ s with access_token := none, user := none }, some "/login",
              .error "Session expired. Please login again."⟩
        ∧ isAuthenticated (handleResponse s r).storage = false := by
  intro s r h
  have he := handleResponse_401_eq s r h
  exact ⟨he, by rw [he]; rfl⟩

/-- Witness for C2. -/
theorem http401_clears_client_session_w :
    handleResponse ⟨some "tok", some "usr", some "k"⟩ ⟨401, none⟩
        = ⟨⟨none, none, some "k"⟩, some "/login",
            .error "Session expired. Please login again."⟩
      ∧ isAuthenticated
          (handleResponse ⟨some "tok", some "usr", some "k"⟩ ⟨401, none⟩).storage
        = false := by
  have h := http401_clears_client_session ⟨some "tok", some "usr", some "k"⟩
    ⟨401, none⟩ rfl
  exact ⟨h.1.trans (by decide), h.2⟩

/-- Claim C3: login with a response carrying a truthy access_token
builds the session object from the given username and the returned
token, persists both the user record and the token, moves the store to
authenticated and reports success; a thrown error, a response without
a truthy token, and a null body all report failure with a message and
leave the in-memory state and the storage untouched. -/
theorem login_paths :
    ∀ (st : AuthState) (s : Storage) (u p : String)
      (api : Except (Option String) (Option Obj)),
      (∀ (o : Obj) (t : String), api = .ok (some o) →
        objGet o "access_token" = some t → t ≠ "" →
        authLogin st s u p api
          = ⟨⟨some [("username", u), ("token", t)]⟩,
              { s with
                  user := some (stringifyObj [("username", u), ("token", t)]),
                  token := some t },
              true, "Login successful"⟩)
      ∧ (∀ e, api = .error e →
          authLogin st s u p api = ⟨st, s, false, getErrorMessage e⟩)
      ∧ (∀ o : Obj, api = .ok (some o) →
          jsTruthy (objGet o "access_token") = false →
          authLogin st s u p api = ⟨st, s, false, "Invalid credentials"⟩)
      ∧ (api = .ok none →
          authLogin st s u p api
            = ⟨st, s, false, getErrorMessage (some nullBodyMsg)⟩) := by
  intro st s u p api
  refine ⟨?_, ?_, ?_, ?_⟩
  · intro o t hapi ht hne
    subst hapi
    exact authLogin_success_eq st s u p t o ht hne
  · intro e hapi
    subst hapi
    rfl
  · intro o hapi htf
    subst hapi
    simp only [authLogin]
    cases hg : objGet o "access_token" with
    | none => rfl
    | some t =>
      rw [hg, jsTruthy] at htf
      simp only [bne_eq_false_iff_eq] at htf
      simp [htf]
  · intro hapi
    subst hapi
    rfl

/-- Witness for C3, the scenario of the spec: login as testuser
against a stub returning access_token abc persists the serialized user
record and the token and reports success. -/
theorem login_paths_w :
    authLogin ⟨none⟩ ⟨none, none, none⟩ "testuser" "test123"
        (.ok (some [("access_token", "abc")]))
      = ⟨⟨some [("username", "testuser"), ("token", "abc")]⟩,
          ⟨none, some "\x7b\"username\":\"testuser\",\"token\":\"abc\"\x7d",
            some "abc"⟩,
          true, "Login successful"⟩ := by
  have h := (login_paths ⟨none⟩ ⟨none, none, none⟩ "testuser" "test123"
      (.ok (some [("access_token", "abc")]))).1
    [("access_token", "abc")] "abc" rfl rfl (by decide)
  exact h.trans (by decide)

/-- Claim C4: the Session Store persists the credential under the
token key while the client reads only access_token, so after such a
login the client attaches no authorization header, its
isAuthenticated is false, and the 401 handler, clearing only
access_token and user, leaves the token entry intact. -/
theorem login_token_key_mismatch :
    ∀ (st : AuthState) (s : Storage) (u p t : String) (o : Obj),
      s.access_token = none →
      objGet o "access_token" = some t → t ≠ "" →
      getAuthHeaders (authLogin st s u p (.ok (some o))).storage
          = [("Content-Type", "application/json")]
        ∧ isAuthenticated (authLogin st s u p (.ok (some o))).storage = false
        ∧ (authLogin st s u p (.ok (some o))).storage.token = some t
        ∧ ∀ r : Response, r.status = 401 →
            (handleResponse (authLogin st s u p (.ok (some o))).storage r).storage.token
              = some t := by
  intro st s u p t o hs ht hne
  rw [authLogin_success_eq st s u p t o ht hne]
  refine ⟨?_, ?_, rfl, ?_⟩
  · simp [getAuthHeaders, hs]
  · simp [isAuthenticated, jsTruthy, hs]
  · intro r hr
    rw [handleResponse_401_eq _ r hr]

/-- Witness for C4. -/
theorem login_token_key_mismatch_w :
    getAuthHeaders (authLogin ⟨none⟩ ⟨none, none, none⟩ "testuser" "pw"
          (.ok (some [("access_token", "tkn")]))).storage
        = [("Content-Type", "application/json")]
      ∧ isAuthenticated (authLogin ⟨none⟩ ⟨none, none, none⟩ "testuser" "pw"
          (.ok (some [("access_token", "tkn")]))).storage = false
      ∧ (handleResponse (authLogin ⟨none⟩ ⟨none, none, none⟩ "testuser" "pw"
            (.ok (some [("access_token", "tkn")]))).storage
          ⟨401, none⟩).storage.token = some "tkn" := by
  have h := login_token_key_mismatch ⟨none⟩ ⟨none, none, none⟩ "testuser" "pw"
    "tkn" [("access_token", "tkn")] rfl rfl (by decide)
  exact ⟨h.1, h.2.1, h.2.2.2 ⟨401, none⟩ rfl⟩

/-- Claim C6 counterexample: a storage state whose user entry is
present and whose token entry is non-empty, for which rehydration does
not yield the authenticated state but throws, because the user entry
is not parseable JSON. -/
theorem rehydrate_invalid_json_cex :
    jsTruthy (Storage.mk none (some ":") (some "t")).user = true
      ∧ jsTruthy (Storage.mk none (some ":") (some "t")).token = true
      ∧ rehydrate ⟨none, some ":", some "t"⟩ = .error jsonErrorMsg := by
  exact ⟨rfl, rfl, by decide⟩

/-- Claim C6 as amended: rehydration yields the authenticated state
exactly when the user entry and the token entry are both truthy
(present and non-empty) and the user entry parses as JSON; whenever
either entry is falsy, rehydration yields the anonymous state. -/
theorem rehydrate_authenticated_iff :
    ∀ s : Storage,
      ((∃ o : Obj, rehydrate s = .ok ⟨some o⟩)
          ↔ jsTruthy s.user = true ∧ jsTruthy s.token = true
            ∧ (parseObj (s.user.getD "")).isSome = true)
      ∧ ((jsTruthy s.user = false ∨ jsTruthy s.token = false) →
          rehydrate s = .ok ⟨none⟩) := by
  intro s
  cases hu : jsTruthy s.user with
  | false =>
    have hr : rehydrate s = .ok ⟨none⟩ := by
      rw [rehydrate, hu]
      rfl
    refine ⟨⟨?_, ?_⟩, fun _ => hr⟩
    · rintro ⟨o, ho⟩
      rw [hr] at ho
      simp at ho
    · rintro ⟨hu2, -, -⟩
      exact absurd hu2 (by decide)
  | true =>
    cases ht : jsTruthy s.token with
    | false =>
      have hr : rehydrate s = .ok ⟨none⟩ := by
        rw [rehydrate, hu, ht]
        rfl
      refine ⟨⟨?_, ?_⟩, fun _ => hr⟩
      · rintro ⟨o, ho⟩
        rw [hr] at ho
        simp at ho
      · rintro ⟨-, ht2, -⟩
        exact absurd ht2 (by decide)
    | true =>
      have hcond : (jsTruthy s.user && jsTruthy s.token) = true := by
        rw [hu, ht]
        rfl
      refine ⟨⟨?_, ?_⟩, ?_⟩
      · rintro ⟨o, ho⟩
        refine ⟨rfl, rfl, ?_⟩
        rw [rehydrate, hcond] at ho
        simp only [if_true] at ho
        cases hp : parseObj (s.user.getD "") with
        | some o2 => rfl
        | none =>
          rw [hp] at ho
          simp at ho
      · rintro ⟨-, -, hps⟩
        obtain ⟨o, hp⟩ := Option.isSome_iff_exists.mp hps
        refine ⟨o, ?_⟩
        rw [rehydrate, hcond]
        simp only [if_true]
        rw [hp]
      · rintro (h | h) <;> exact absurd h (by decide)

/-- Witness for C6: the amended statement applied to a storage state
holding a serialized user record with a non-empty token, and to an
empty storage state. -/
theorem rehydrate_authenticated_iff_w :
    rehydrate ⟨none, some "\x7b\"username\":\"u\",\"token\":\"t\"\x7d", some "t"⟩
        = .ok ⟨some [("username", "u"), ("token", "t")]⟩
      ∧ rehydrate ⟨none, none, none⟩ = .ok ⟨none⟩ := by
  constructor
  · obtain ⟨o, ho⟩ := (rehydrate_authenticated_iff
      ⟨none, some "\x7b\"username\":\"u\",\"token\":\"t\"\x7d", some "t"⟩).1.mpr
      ⟨rfl, rfl, by decide⟩
    have hx : o = [("username", "u"), ("token", "t")] := by
      have := ho.symm.trans (by decide :
        rehydrate ⟨none, some "\x7b\"username\":\"u\",\"token\":\"t\"\x7d", some "t"⟩
          = .ok ⟨some [("username", "u"), ("token", "t")]⟩)
      injection this with h2
      injection h2 with h3
      injection h3
    rw [hx] at ho
    exact ho
  · exact (rehydrate_authenticated_iff ⟨none, none, none⟩).2 (Or.inl rfl)

/-- Claim C7: logout nulls the in-memory session, removes the user and
token entries, publishes exactly one success toast; rehydration from
the resulting storage is anonymous; and a second logout from the
resulting state changes nothing beyond publishing the toast again. -/
theorem logout_then_rehydrate_anonymous :
    ∀ (st : AuthState) (s : Storage),
      authLogout st s
          = ⟨⟨none⟩, { s with user := none, token := none },
              [⟨Severity.success, "Logged out successfully"⟩]⟩
        ∧ rehydrate (authLogout st s).storage = .ok ⟨none⟩
        ∧ authLogout (authLogout st s).state (authLogout st s).storage
            = ⟨⟨none⟩, (authLogout st s).storage,
                [⟨Severity.success, "Logged out successfully"⟩]⟩ := by
  intro st s
  exact ⟨rfl, rfl, rfl⟩

/-- Claim C8 counterexample: the fallback message the code throws for
a bodyless 500 is HTTP error! status: 500, which is not the literal
template quoted by the claim. -/
theorem non401_fallback_message_cex :
    handleResponse ⟨none, none, none⟩ ⟨500, none⟩
        = ⟨⟨none, none, none⟩, none, .error "HTTP error! status: 500"⟩
      ∧ "HTTP error! status: 500" ≠ "HTTP error, status=500" := by
  exact ⟨by decide, by decide⟩

/-- Claim C8 as amended: for a non-401 response, a 204 resolves to an
empty result; any other non-success status throws the truthy detail
field of the parsed error body when there is one, and otherwise the
fallback message HTTP error! status: code, this whether the body is
absent, lacks the detail field, or carries an empty (falsy) detail; a
success status resolves to the parsed body. -/
theorem non401_response_handling :
    ∀ (s : Storage) (r : Response),
      r.status ≠ 401 →
      (r.status = 204 → handleResponse s r = ⟨s, none, .ok none⟩)
      ∧ (responseOk r.status = false → r.body = none →
          handleResponse s r = ⟨s, none, .error (httpErrorFallback r.status)⟩)
      ∧ (responseOk r.status = false → ∀ (o : Obj) (d : String),
          r.body = some o → objGet o "detail" = some d → d ≠ "" →
          handleResponse s r = ⟨s, none, .error d⟩)
      ∧ (responseOk r.status = false → ∀ o : Obj,
          r.body = some o → objGet o "detail" = none →
          handleResponse s r = ⟨s, none, .error (httpErrorFallback r.status)⟩)
      ∧ (responseOk r.status = false → ∀ o : Obj,
          r.body = some o → objGet o "detail" = some "" →
          handleResponse s r = ⟨s, none, .error (httpErrorFallback r.status)⟩)
      ∧ (responseOk r.status = true → r.status ≠ 204 → ∀ o : Obj,
          r.body = some o → handleResponse s r = ⟨s, none, .ok (some o)⟩) := by
  intro s r h401
  refine ⟨?_, ?_, ?_, ?_, ?_, ?_⟩
  · intro h204
    have hok : responseOk r.status = true := by
      rw [h204]
      rfl
    rw [handleResponse, if_neg h401, hok]
    simp only [Bool.true_eq_false, if_false, if_pos h204]
  · intro hok hbody
    rw [handleResponse, if_neg h401, if_pos hok, hbody]
    rfl
  · intro hok o d hbody hd hdne
    rw [handleResponse, if_neg h401, if_pos hok, hbody]
    simp only [Option.getD_some, hd]
    rw [if_neg hdne]
  · intro hok o hbody hd
    rw [handleResponse, if_neg h401, if_pos hok, hbody]
    simp only [Option.getD_some, hd]
  · intro hok o hbody hd
    rw [handleResponse, if_neg h401, if_pos hok, hbody]
    simp only [Option.getD_some, hd]
    rfl
  · intro hok h204 o hbody
    rw [handleResponse, if_neg h401, hok]
    simp only [Bool.true_eq_false, if_false]
    rw [if_neg h204, hbody]

/-- Witness for C8: a 204, a 404 carrying a detail message, a 400
whose parsed body carries an empty detail, and a 200 with a parsed
body. -/
theorem non401_response_handling_w :
    handleResponse ⟨none, none, none⟩ ⟨204, none⟩
        = ⟨⟨none, none, none⟩, none, .ok none⟩
      ∧ handleResponse ⟨none, none, none⟩ ⟨404, some [("detail", "Sweet not found")]⟩
          = ⟨⟨none, none, none⟩, none, .error "Sweet not found"⟩
      ∧ handleResponse ⟨none, none, none⟩ ⟨400, some [("detail", "")]⟩
          = ⟨⟨none, none, none⟩, none, .error "HTTP error! status: 400"⟩
      ∧ handleResponse ⟨none, none, none⟩ ⟨200, some [("total_cost", "7.5")]⟩
          = ⟨⟨none, none, none⟩, none, .ok (some [("total_cost", "7.5")])⟩ := by
  refine ⟨(non401_response_handling ⟨none, none, none⟩ ⟨204, none⟩ (by decide)).1 rfl,
    (non401_response_handling ⟨none, none, none⟩ ⟨404, some [("detail", "Sweet not found")]⟩
      (by decide)).2.2.1 (by decide) [("detail", "Sweet not found")] "Sweet not found"
      rfl (by decide) (by decide),
    (non401_response_handling ⟨none, none, none⟩ ⟨400, some [("detail", "")]⟩
      (by decide)).2.2.2.2.1 (by decide) [("detail", "")] rfl (by decide),
    (non401_response_handling ⟨none, none, none⟩ ⟨200, some [("total_cost", "7.5")]⟩
      (by decide)).2.2.2.2.2 (by decide) (by decide) [("total_cost", "7.5")] rfl⟩

/-- Helper for C9: once no event in a trace delivers a toast with a
given identifier, absence of that identifier from the visible list is
preserved by running the trace. -/
theorem toast_absent_invariant (i : Nat) :
    ∀ (evs : List TEvent) (v : List ToastItem),
      (∀ t : ToastItem, TEvent.deliver t ∈ evs → t.id ≠ i) →
      (∀ t ∈ v, t.id ≠ i) →
      ∀ t ∈ trunFrom v evs, t.id ≠ i := by
  intro evs
  induction evs with
  | nil => exact fun v _ hv t htm => hv t htm
  | cons e rest ih =>
    intro v hevs hv t htm
    have hstep : ∀ t ∈ tstep v e, t.id ≠ i := by
      cases e with
      | deliver t0 =>
        intro t2 ht2
        rcases List.mem_append.mp ht2 with h | h
        · exact hv t2 h
        · have h2 : t2 = t0 := List.mem_singleton.mp h
          subst h2
          exact hevs t2 (List.mem_cons_self _ _)
      | fire j => exact fun t2 ht2 => hv t2 (List.mem_of_mem_filter ht2)
      | dismiss j => exact fun t2 ht2 => hv t2 (List.mem_of_mem_filter ht2)
    exact ih (tstep v e) (fun t2 ht2 => hevs t2 (List.mem_cons_of_mem _ ht2)) hstep t htm

/-- Claim C9: a published toast schedules its auto-dismiss exactly
4000ms after its creation and carries a fresh identifier, so the toast
is gone from every visible list reached after its timer fires (no
later event delivers that identifier again); and removing one
identifier, by timer or by click, never affects membership of a toast
with a different identifier. -/
theorem toast_lifetime_and_isolation :
    (∀ (message ttype : String) (now counter : Nat),
        fireAt (showToast message ttype now counter).1 = now + 4000
        ∧ (showToast message ttype now counter).1.id = counter + 1)
    ∧ (∀ (v0 : List ToastItem) (pre post : List TEvent) (i : Nat),
        (∀ t : ToastItem, TEvent.deliver t ∈ post → t.id ≠ i) →
        ∀ t ∈ trunFrom v0 (pre ++ TEvent.fire i :: post), t.id ≠ i)
    ∧ (∀ (v : List ToastItem) (i : Nat) (t : ToastItem), t.id ≠ i →
        ((t ∈ tstep v (TEvent.dismiss i)) ↔ t ∈ v)
        ∧ ((t ∈ tstep v (TEvent.fire i)) ↔ t ∈ v)) := by
  refine ⟨fun _ _ _ _ => ⟨rfl, rfl⟩, ?_, ?_⟩
  · intro v0 pre post i hpost t htm
    have hsplit : trunFrom v0 (pre ++ TEvent.fire i :: post)
        = trunFrom (tstep (trunFrom v0 pre) (TEvent.fire i)) post := by
      rw [trunFrom, List.foldl_append]
      rfl
    rw [hsplit] at htm
    refine toast_absent_invariant i post _ hpost ?_ t htm
    intro t2 ht2
    simp only [tstep] at ht2
    exact of_decide_eq_true (List.mem_filter.mp ht2).2
  · intro v i t hne
    refine ⟨⟨fun h => List.mem_of_mem_filter h, fun h => ?_⟩,
      ⟨fun h => List.mem_of_mem_filter h, fun h => ?_⟩⟩
    · exact List.mem_filter.mpr ⟨h, decide_eq_true hne⟩
    · exact List.mem_filter.mpr ⟨h, decide_eq_true hne⟩

/-- Witness for C9: in the trace that delivers toast 1, fires its
timer, then delivers toast 2, the surviving member has identifier
different from 1; and dismissing identifier 1 keeps toast 2 visible. -/
theorem toast_lifetime_and_isolation_w :
    (ToastItem.mk 2 "b" "info" 5).id ≠ 1
      ∧ ToastItem.mk 2 "b" "info" 5
          ∈ tstep [ToastItem.mk 2 "b" "info" 5] (TEvent.dismiss 1) := by
  constructor
  · refine toast_lifetime_and_isolation.2.1 []
      [TEvent.deliver ⟨1, "a", "info", 0⟩] [TEvent.deliver ⟨2, "b", "info", 5⟩] 1
      ?_ ⟨2, "b", "info", 5⟩ ?_
    · intro t ht
      have he := List.mem_singleton.mp ht
      injection he with he2
      subst he2
      decide
    · decide
  · exact (toast_lifetime_and_isolation.2.2 [⟨2, "b", "info", 5⟩] 1
      ⟨2, "b", "info", 5⟩ (by decide)).1.mpr (by decide)

/-- Claim C10 counterexample: a storage state whose user entry is
present and not valid JSON on which getStoredUser throws but
rehydration does not, because the token entry is absent. -/
theorem invalid_stored_user_cex :
    parseObj "%" = none
      ∧ getStoredUser ⟨none, some "%", none⟩ = .error jsonErrorMsg
      ∧ rehydrate ⟨none, some "%", none⟩ = .ok ⟨none⟩ := by
  exact ⟨by decide, by decide, by decide⟩

/-- Claim C10 as amended: when the user entry is present, non-empty
and not valid JSON, getStoredUser always throws; rehydration throws
exactly when the token entry is additionally truthy, and otherwise
yields the anonymous state without consulting the parse. -/
theorem invalid_stored_user_behavior :
    ∀ (s : Storage) (us : String),
      s.user = some us → us ≠ "" → parseObj us = none →
      getStoredUser s = .error jsonErrorMsg
      ∧ (jsTruthy s.token = true → rehydrate s = .error jsonErrorMsg)
      ∧ (jsTruthy s.token = false → rehydrate s = .ok ⟨none⟩) := by
  intro s us hu hne hp
  have htr : jsTruthy s.user = true := by
    rw [hu, jsTruthy]
    exact bne_iff_ne.mpr hne
  refine ⟨?_, ?_, ?_⟩
  · rw [getStoredUser, htr]
    simp only [if_true, hu, Option.getD_some, hp]
  · intro ht
    rw [rehydrate, htr, ht]
    simp only [Bool.and_self, if_true, hu, Option.getD_some, hp]
  · intro ht
    rw [rehydrate, htr, ht]
    rfl

/-- Witness for C10. -/
theorem invalid_stored_user_behavior_w :
    getStoredUser ⟨none, some "oops", some "t"⟩ = .error jsonErrorMsg
      ∧ rehydrate ⟨none, some "oops", some "t"⟩ = .error jsonErrorMsg := by
  have h := invalid_stored_user_behavior ⟨none, some "oops", some "t"⟩ "oops"
    rfl (by decide) (by decide)
  exact ⟨h.1, h.2.1 rfl⟩

end SweetShop
